import Mathlib

set_option linter.dupNamespace false

/-!
# DuoChat / Checkmate refinement orchestrator: shallow embedding

This file embeds the two orchestrator implementations of the repository
(`src/duochat.ts` exporting `createDuoChat`, and the second copy exporting
`createCheckMate`) and proves properties of the `perform` refinement loop.

Modelling choices:

* An agent capability (`executor.complete` / `verifier.complete`) is an
  external, possibly failing, call.  We model a capability as a function
  `Nat → String → Option String`: the first argument is the number of calls
  already made on that capability (so successive calls may behave
  differently, covering every sequential behaviour of the external agent),
  the second is the prompt; `none` models a rejected promise (a thrown
  error), `some s` a successful completion `s`.
* The `while` loop of `perform` is translated as a recursive function with
  an explicit fuel parameter.  `perform` supplies `maxAttempts` fuel; since
  the loop guard requires `attempt < maxAttempts` and the `finally` block
  increments `attempt` on every iteration, `maxAttempts - attempt` bounds the
  remaining iterations, so the fuel-0 branch (which executes the post-loop
  code, like a failed guard) is never reached with the guard still true.
* `PerformResult` additionally records instrumentation that is observable in
  the source's trace (number of executor calls, number of verifier calls,
  the final value of the `attempt` counter, the final `recordHistory`, and
  which syntactic exit left the loop).  The `attempt` counter is incremented
  exactly once per entry of the loop body (the `finally` clause), so the
  final `attempts` value equals the number of loop-body entries.
* Debug logging (`logForDebug` / `warnForDebug`) only writes to the console
  and never affects control flow; it is not modelled, but the `debug` field
  of the instance is kept.
-/

/-- A round record, as pushed onto `recordHistory` when both the executor and
the verifier call of a round succeed. -/
structure RoundRecord where
  executorPrompt : String
  executorSolution : String
  verifierPrompt : String
  verifierFeedback : String
deriving Repr, DecidableEq

/-- How a run of `perform` ended: `solution s` models a normal return of the
string `s`; `failure n` models `throw new Error` with the attempt count `n`
embedded in the message. -/
inductive Outcome where
  | solution : String → Outcome
  | failure : Nat → Outcome
deriving Repr, DecidableEq

/-- Which syntactic exit left the `while` loop: `guardExit` is a failed loop
guard (followed by the post-loop throw-or-return code), `finalRoundReturn` is
the early `return executorSolution` taken when the executor of the final
round succeeds. -/
inductive ExitKind where
  | guardExit : ExitKind
  | finalRoundReturn : ExitKind
deriving Repr, DecidableEq

/-- The observable result of `perform`: its outcome plus instrumentation of
the run (see the file header). -/
structure PerformResult where
  outcome : Outcome
  execCalls : Nat
  verifCalls : Nat
  attempts : Nat
  history : List RoundRecord
  exitKind : ExitKind
deriving Repr, DecidableEq

namespace DuoChat

/-- The `DuoChat` instance produced by `createDuoChat` in `src/duochat.ts`:
the two capabilities plus the configuration fields.  The prompt-building
functions and `perform` close over these fields. -/
structure DuoChat where
  executor : Nat → String → Option String
  verifier : Nat → String → Option String
  refinementRounds : Nat
  maxAttempts : Nat
  debug : Bool

/-- `createExecuteInitialPrompt` of `src/duochat.ts`. -/
def createExecuteInitialPrompt (taskDescription : String) : String :=
  "As the task executor, your job is to complete the task described below:\n```\n"
    ++ taskDescription ++ "\n```\nGenerate a solution accordingly."

/-- `createExecuteFollowupPrompt` of `src/duochat.ts`. -/
def createExecuteFollowupPrompt (taskDescription previousExecutorSolution verifierFeedback : String) : String :=
  "As the task executor, based on the verifier\x27s feedback, refine the solution for the following task:\n```\n"
    ++ taskDescription ++ "\n```\nYour previous solution was: \n```\n"
    ++ previousExecutorSolution ++ "\n```\nThe verifier\x27s feedback on your previous solution was: \n```\n"
    ++ verifierFeedback ++ "\n```\nPlease provide an updated solution accordingly."

/-- `createVerifyInitialPrompt` of `src/duochat.ts`. -/
def createVerifyInitialPrompt (taskDescription executorSolution : String) : String :=
  "As the task verifier, critically review the solution for the task described below:\n```\n"
    ++ taskDescription ++ "\n```\nThe provided solution is: \n```\n"
    ++ executorSolution ++ "\n```\nHighlight any areas for improvement."

/-- `createVerifyFollowupPrompt` of `src/duochat.ts`. -/
def createVerifyFollowupPrompt (taskDescription executorSolution : String) : String :=
  "As the task verifier, based on the refined solution, please review it again for the following task:\n```\n"
    ++ taskDescription ++ "\n```\nThe updated solution is: \n```\n"
    ++ executorSolution ++ "\n```\nIdentify any remaining areas that need further refinement."

/-- The executor prompt chosen at the top of a round attempt:
`recordHistory.length === 0 ? createExecuteInitialPrompt(...) :
createExecuteFollowupPrompt(..., lastRoundRecord...)`.  `List.getLast?` is
`none` exactly when `recordHistory.length === 0`. -/
def executorPromptFor (taskDescription : String) (recordHistory : List RoundRecord) : String :=
  match recordHistory.getLast? with
  | none => createExecuteInitialPrompt taskDescription
  | some lastRoundRecord =>
      createExecuteFollowupPrompt taskDescription
        lastRoundRecord.executorSolution lastRoundRecord.verifierFeedback

/-- The verifier prompt chosen after a successful non-final executor call:
`recordHistory.length === 0 ? createVerifyInitialPrompt(...) :
createVerifyFollowupPrompt(...)`. -/
def verifierPromptFor (taskDescription : String) (recordHistory : List RoundRecord)
    (executorSolution : String) : String :=
  if recordHistory.length = 0 then createVerifyInitialPrompt taskDescription executorSolution
  else createVerifyFollowupPrompt taskDescription executorSolution

/-- The code after the `while` loop of `perform`: throw if `recordHistory`
is empty, otherwise return the last record's executor solution. -/
def exitResult (recordHistory : List RoundRecord) (attempt execCalls verifCalls : Nat) :
    PerformResult :=
  match recordHistory.getLast? with
  | none =>
      { outcome := .failure attempt, execCalls := execCalls, verifCalls := verifCalls,
        attempts := attempt, history := recordHistory, exitKind := .guardExit }
  | some lastRoundRecord =>
      { outcome := .solution lastRoundRecord.executorSolution, execCalls := execCalls,
        verifCalls := verifCalls, attempts := attempt, history := recordHistory,
        exitKind := .guardExit }

/-- The `while` loop of `perform` in `src/duochat.ts`.  One call of
`performLoop` with the guard true is one entry of the loop body; the `catch`
of a failed agent call continues the loop, the `finally` increments
`attempt` on every path (also on the early return of the final round).
The fuel-0 branch runs the post-loop code and is unreachable from `perform`
with the guard still true (the guard forces `attempt < maxAttempts` and
`attempt` grows by one per iteration while fuel shrinks by one from
`maxAttempts`).  Note `duochat.refinementRounds - 1` is truncated `Nat`
subtraction; the comparison is only reached under the guard
`recordHistory.length < duochat.refinementRounds`, which forces
`refinementRounds ≥ 1`, where it agrees with the source. -/
def performLoop (duochat : DuoChat) (taskDescription : String) :
    Nat → List RoundRecord → Nat → Nat → Nat → PerformResult
  | 0, recordHistory, attempt, execCalls, verifCalls =>
      exitResult recordHistory attempt execCalls verifCalls
  | fuel + 1, recordHistory, attempt, execCalls, verifCalls =>
      if recordHistory.length < duochat.refinementRounds ∧ attempt < duochat.maxAttempts then
        let executorPrompt := executorPromptFor taskDescription recordHistory
        match duochat.executor execCalls executorPrompt with
        | none =>
            performLoop duochat taskDescription fuel recordHistory (attempt + 1)
              (execCalls + 1) verifCalls
        | some executorSolution =>
            if recordHistory.length = duochat.refinementRounds - 1 then
              { outcome := .solution executorSolution, execCalls := execCalls + 1,
                verifCalls := verifCalls, attempts := attempt + 1,
                history := recordHistory, exitKind := .finalRoundReturn }
            else
              let verifierPrompt := verifierPromptFor taskDescription recordHistory executorSolution
              match duochat.verifier verifCalls verifierPrompt with
              | none =>
                  performLoop duochat taskDescription fuel recordHistory (attempt + 1)
                    (execCalls + 1) (verifCalls + 1)
              | some verifierFeedback =>
                  performLoop duochat taskDescription fuel
                    (recordHistory ++ [{ executorPrompt := executorPrompt,
                                         executorSolution := executorSolution,
                                         verifierPrompt := verifierPrompt,
                                         verifierFeedback := verifierFeedback }])
                    (attempt + 1) (execCalls + 1) (verifCalls + 1)
      else
        exitResult recordHistory attempt execCalls verifCalls

/-- `perform(taskDescription)` of `src/duochat.ts`: run the loop from
`recordHistory = []`, `attempt = 0`, with no agent calls made yet. -/
def perform (duochat : DuoChat) (taskDescription : String) : PerformResult :=
  performLoop duochat taskDescription duochat.maxAttempts [] 0 0 0

/-- `createDuoChat(executor, verifier)` of `src/duochat.ts`: fixed
`refinementRounds: 3`, `maxAttempts: 5`, `debug: false`. -/
def createDuoChat (executor verifier : Nat → String → Option String) : DuoChat :=
  { executor := executor, verifier := verifier, refinementRounds := 3,
    maxAttempts := 5, debug := false }

end DuoChat

namespace Checkmate

/-- The `Checkmate` instance produced by `createCheckMate` in the second
source file (same shape as `DuoChat`). -/
structure Checkmate where
  executor : Nat → String → Option String
  verifier : Nat → String → Option String
  refinementRounds : Nat
  maxAttempts : Nat
  debug : Bool

/-- `createExecuteInitialPrompt` of the Checkmate source file. -/
def createExecuteInitialPrompt (taskDescription : String) : String :=
  "As the task executor, your job is to complete the task described below:\n```\n"
    ++ taskDescription ++ "\n```\nGenerate a solution accordingly."

/-- `createExecuteFollowupPrompt` of the Checkmate source file. -/
def createExecuteFollowupPrompt (taskDescription previousExecutorSolution verifierFeedback : String) : String :=
  "As the task executor, based on the verifier\x27s feedback, refine the solution for the following task:\n```\n"
    ++ taskDescription ++ "\n```\nYour previous solution was: \n```\n"
    ++ previousExecutorSolution ++ "\n```\nThe verifier\x27s feedback on your previous solution was: \n```\n"
    ++ verifierFeedback ++ "\n```\nPlease provide an updated solution accordingly."

/-- `createVerifyInitialPrompt` of the Checkmate source file. -/
def createVerifyInitialPrompt (taskDescription executorSolution : String) : String :=
  "As the task verifier, critically review the solution for the task described below:\n```\n"
    ++ taskDescription ++ "\n```\nThe provided solution is: \n```\n"
    ++ executorSolution ++ "\n```\nHighlight any areas for improvement."

/-- `createVerifyFollowupPrompt` of the Checkmate source file. -/
def createVerifyFollowupPrompt (taskDescription executorSolution : String) : String :=
  "As the task verifier, based on the refined solution, please review it again for the following task:\n```\n"
    ++ taskDescription ++ "\n```\nThe updated solution is: \n```\n"
    ++ executorSolution ++ "\n```\nIdentify any remaining areas that need further refinement."

/-- Executor prompt selection at the top of a round attempt (Checkmate copy). -/
def executorPromptFor (taskDescription : String) (recordHistory : List RoundRecord) : String :=
  match recordHistory.getLast? with
  | none => createExecuteInitialPrompt taskDescription
  | some lastRoundRecord =>
      createExecuteFollowupPrompt taskDescription
        lastRoundRecord.executorSolution lastRoundRecord.verifierFeedback

/-- Verifier prompt selection (Checkmate copy). -/
def verifierPromptFor (taskDescription : String) (recordHistory : List RoundRecord)
    (executorSolution : String) : String :=
  if recordHistory.length = 0 then createVerifyInitialPrompt taskDescription executorSolution
  else createVerifyFollowupPrompt taskDescription executorSolution

/-- Post-loop code of `perform` (Checkmate copy). -/
def exitResult (recordHistory : List RoundRecord) (attempt execCalls verifCalls : Nat) :
    PerformResult :=
  match recordHistory.getLast? with
  | none =>
      { outcome := .failure attempt, execCalls := execCalls, verifCalls := verifCalls,
        attempts := attempt, history := recordHistory, exitKind := .guardExit }
  | some lastRoundRecord =>
      { outcome := .solution lastRoundRecord.executorSolution, execCalls := execCalls,
        verifCalls := verifCalls, attempts := attempt, history := recordHistory,
        exitKind := .guardExit }

/-- The `while` loop of `perform` (Checkmate copy; see `DuoChat.performLoop`
for the fuel discipline). -/
def performLoop (checkmate : Checkmate) (taskDescription : String) :
    Nat → List RoundRecord → Nat → Nat → Nat → PerformResult
  | 0, recordHistory, attempt, execCalls, verifCalls =>
      exitResult recordHistory attempt execCalls verifCalls
  | fuel + 1, recordHistory, attempt, execCalls, verifCalls =>
      if recordHistory.length < checkmate.refinementRounds ∧ attempt < checkmate.maxAttempts then
        let executorPrompt := executorPromptFor taskDescription recordHistory
        match checkmate.executor execCalls executorPrompt with
        | none =>
            performLoop checkmate taskDescription fuel recordHistory (attempt + 1)
              (execCalls + 1) verifCalls
        | some executorSolution =>
            if recordHistory.length = checkmate.refinementRounds - 1 then
              { outcome := .solution executorSolution, execCalls := execCalls + 1,
                verifCalls := verifCalls, attempts := attempt + 1,
                history := recordHistory, exitKind := .finalRoundReturn }
            else
              let verifierPrompt := verifierPromptFor taskDescription recordHistory executorSolution
              match checkmate.verifier verifCalls verifierPrompt with
              | none =>
                  performLoop checkmate taskDescription fuel recordHistory (attempt + 1)
                    (execCalls + 1) (verifCalls + 1)
              | some verifierFeedback =>
                  performLoop checkmate taskDescription fuel
                    (recordHistory ++ [{ executorPrompt := executorPrompt,
                                         executorSolution := executorSolution,
                                         verifierPrompt := verifierPrompt,
                                         verifierFeedback := verifierFeedback }])
                    (attempt + 1) (execCalls + 1) (verifCalls + 1)
      else
        exitResult recordHistory attempt execCalls verifCalls

/-- `perform(taskDescription)` (Checkmate copy). -/
def perform (checkmate : Checkmate) (taskDescription : String) : PerformResult :=
  performLoop checkmate taskDescription checkmate.maxAttempts [] 0 0 0

/-- The default value of the optional `refinementRounds` parameter of
`createCheckMate`. -/
def defaultRefinementRounds : Nat := 3

/-- `createCheckMate(executor, verifier, refinementRounds = 3)`:
`maxAttempts` is fixed to `refinementRounds + 2` at construction,
`debug` starts `false`. -/
def createCheckMate (executor verifier : Nat → String → Option String)
    (refinementRounds : Nat) : Checkmate :=
  { executor := executor, verifier := verifier, refinementRounds := refinementRounds,
    maxAttempts := refinementRounds + 2, debug := false }

end Checkmate

/-- Always-succeeding capabilities used for concrete runs: the executor
returns E1, E2, ... and the verifier V1, V2, ... on successive calls,
ignoring the prompt. -/
def numberedAgent (letter : String) : Nat → String → Option String :=
  fun i _ => some (letter ++ toString (i + 1))

/-- The raw strings returned by `numberedAgent`. -/
def numberedOutput (letter : String) : Nat → String → String :=
  fun i _ => letter ++ toString (i + 1)

/-- A capability that always fails. -/
def failingAgent : Nat → String → Option String := fun _ _ => none

/-- A `Checkmate` instance is the same record shape as a `DuoChat` instance;
this coercion lets the two copies of `performLoop` be compared. -/
def Checkmate.toDuoChat (checkmate : Checkmate.Checkmate) : DuoChat.DuoChat :=
  { executor := checkmate.executor, verifier := checkmate.verifier,
    refinementRounds := checkmate.refinementRounds,
    maxAttempts := checkmate.maxAttempts, debug := checkmate.debug }

/-- The loop-head states of `perform` reachable for a given instance and
task: `init` is the state on loop entry (`recordHistory = []`,
`attempt = 0`, no agent calls made), and the three step constructors are
exactly the three continuing paths of the loop body of
`DuoChat.performLoop` (executor failure, executor success then verifier
failure on a non-final round, and a completed round).  The early return of
the final round and failed guards have no successor state. -/
inductive ReachableState (duochat : DuoChat.DuoChat) (taskDescription : String) :
    List RoundRecord → Nat → Nat → Nat → Prop where
  | init : ReachableState duochat taskDescription [] 0 0 0
  | execFailStep : ∀ recordHistory attempt execCalls verifCalls,
      ReachableState duochat taskDescription recordHistory attempt execCalls verifCalls →
      recordHistory.length < duochat.refinementRounds →
      attempt < duochat.maxAttempts →
      duochat.executor execCalls (DuoChat.executorPromptFor taskDescription recordHistory) = none →
      ReachableState duochat taskDescription recordHistory (attempt + 1) (execCalls + 1) verifCalls
  | verifFailStep : ∀ recordHistory attempt execCalls verifCalls executorSolution,
      ReachableState duochat taskDescription recordHistory attempt execCalls verifCalls →
      recordHistory.length < duochat.refinementRounds →
      attempt < duochat.maxAttempts →
      duochat.executor execCalls (DuoChat.executorPromptFor taskDescription recordHistory) =
        some executorSolution →
      recordHistory.length ≠ duochat.refinementRounds - 1 →
      duochat.verifier verifCalls
        (DuoChat.verifierPromptFor taskDescription recordHistory executorSolution) = none →
      ReachableState duochat taskDescription recordHistory (attempt + 1) (execCalls + 1)
        (verifCalls + 1)
  | roundCompleteStep : ∀ recordHistory attempt execCalls verifCalls executorSolution verifierFeedback,
      ReachableState duochat taskDescription recordHistory attempt execCalls verifCalls →
      recordHistory.length < duochat.refinementRounds →
      attempt < duochat.maxAttempts →
      duochat.executor execCalls (DuoChat.executorPromptFor taskDescription recordHistory) =
        some executorSolution →
      recordHistory.length ≠ duochat.refinementRounds - 1 →
      duochat.verifier verifCalls
        (DuoChat.verifierPromptFor taskDescription recordHistory executorSolution) =
        some verifierFeedback →
      ReachableState duochat taskDescription
        (recordHistory ++
          [{ executorPrompt := DuoChat.executorPromptFor taskDescription recordHistory,
             executorSolution := executorSolution,
             verifierPrompt := DuoChat.verifierPromptFor taskDescription recordHistory executorSolution,
             verifierFeedback := verifierFeedback }])
        (attempt + 1) (execCalls + 1) (verifCalls + 1)

/-! ## Helper lemmas -/

namespace DuoChat

theorem exitResult_attempts (recordHistory : List RoundRecord) (attempt execCalls verifCalls : Nat) :
    (exitResult recordHistory attempt execCalls verifCalls).attempts = attempt := by
  cases hg : recordHistory.getLast? <;> simp [exitResult, hg]

theorem exitResult_exitKind (recordHistory : List RoundRecord) (attempt execCalls verifCalls : Nat) :
    (exitResult recordHistory attempt execCalls verifCalls).exitKind = .guardExit := by
  cases hg : recordHistory.getLast? <;> simp [exitResult, hg]

theorem exitResult_history (recordHistory : List RoundRecord) (attempt execCalls verifCalls : Nat) :
    (exitResult recordHistory attempt execCalls verifCalls).history = recordHistory := by
  cases hg : recordHistory.getLast? <;> simp [exitResult, hg]

end DuoChat

theorem exitResult_bridge : Checkmate.exitResult = DuoChat.exitResult := rfl

theorem executorPromptFor_bridge : Checkmate.executorPromptFor = DuoChat.executorPromptFor := rfl

theorem verifierPromptFor_bridge : Checkmate.verifierPromptFor = DuoChat.verifierPromptFor := rfl

theorem toDuoChat_executor (checkmate : Checkmate.Checkmate) :
    (Checkmate.toDuoChat checkmate).executor = checkmate.executor := rfl

theorem toDuoChat_verifier (checkmate : Checkmate.Checkmate) :
    (Checkmate.toDuoChat checkmate).verifier = checkmate.verifier := rfl

theorem toDuoChat_refinementRounds (checkmate : Checkmate.Checkmate) :
    (Checkmate.toDuoChat checkmate).refinementRounds = checkmate.refinementRounds := rfl

theorem toDuoChat_maxAttempts (checkmate : Checkmate.Checkmate) :
    (Checkmate.toDuoChat checkmate).maxAttempts = checkmate.maxAttempts := rfl

/-- The two source files' loop bodies are the same code: the Checkmate copy
of `performLoop` agrees with the DuoChat copy on every instance, input and
state. -/
theorem performLoop_bridge (checkmate : Checkmate.Checkmate) (taskDescription : String) :
    ∀ fuel recordHistory attempt execCalls verifCalls,
      Checkmate.performLoop checkmate taskDescription fuel recordHistory attempt execCalls verifCalls =
        DuoChat.performLoop (Checkmate.toDuoChat checkmate) taskDescription fuel recordHistory attempt
          execCalls verifCalls := by
  intro fuel
  induction fuel with
  | zero => intro recordHistory attempt execCalls verifCalls; rfl
  | succ fuel ih =>
    intro recordHistory attempt execCalls verifCalls
    simp only [Checkmate.performLoop, DuoChat.performLoop, toDuoChat_executor, toDuoChat_verifier,
      toDuoChat_refinementRounds, toDuoChat_maxAttempts,
      executorPromptFor_bridge, verifierPromptFor_bridge, exitResult_bridge]
    split
    · cases hE : checkmate.executor execCalls (DuoChat.executorPromptFor taskDescription recordHistory) with
      | none => simp only [ih]
      | some executorSolution =>
        dsimp only
        split
        · rfl
        · cases hV : checkmate.verifier verifCalls
              (DuoChat.verifierPromptFor taskDescription recordHistory executorSolution) with
          | none => simp only [ih]
          | some verifierFeedback => simp only [ih]
    · rfl

/-- `Checkmate.perform` agrees with `DuoChat.perform` at the coerced
instance. -/
theorem perform_bridge (checkmate : Checkmate.Checkmate) (taskDescription : String) :
    Checkmate.perform checkmate taskDescription =
      DuoChat.perform (Checkmate.toDuoChat checkmate) taskDescription := by
  simp only [Checkmate.perform, DuoChat.perform, performLoop_bridge, toDuoChat_maxAttempts]
namespace DuoChat

theorem performLoop_attempts_le (duochat : DuoChat) (taskDescription : String) :
    ∀ fuel recordHistory attempt execCalls verifCalls,
      attempt ≤ duochat.maxAttempts →
      (performLoop duochat taskDescription fuel recordHistory attempt execCalls verifCalls).attempts ≤
        duochat.maxAttempts := by
  intro fuel
  induction fuel with
  | zero =>
    intro recordHistory attempt execCalls verifCalls hA
    simpa [performLoop, exitResult_attempts] using hA
  | succ fuel ih =>
    intro recordHistory attempt execCalls verifCalls hA
    simp only [performLoop]
    split
    · rename_i hguard
      cases hE : duochat.executor execCalls (executorPromptFor taskDescription recordHistory) with
      | none => exact ih _ _ _ _ (by omega)
      | some executorSolution =>
        dsimp only
        split
        · simpa using hguard.2
        · cases hV : duochat.verifier verifCalls
              (verifierPromptFor taskDescription recordHistory executorSolution) with
          | none => exact ih _ _ _ _ (by omega)
          | some verifierFeedback => exact ih _ _ _ _ (by omega)
    · simpa [exitResult_attempts] using hA

theorem performLoop_execFail (duochat : DuoChat) (taskDescription : String)
    (hE : ∀ i p, duochat.executor i p = none) (hR : 1 ≤ duochat.refinementRounds) :
    ∀ fuel attempt execCalls verifCalls,
      duochat.maxAttempts ≤ fuel + attempt → attempt ≤ duochat.maxAttempts →
      performLoop duochat taskDescription fuel [] attempt execCalls verifCalls =
        { outcome := .failure duochat.maxAttempts,
          execCalls := execCalls + (duochat.maxAttempts - attempt),
          verifCalls := verifCalls, attempts := duochat.maxAttempts,
          history := [], exitKind := .guardExit } := by
  intro fuel
  induction fuel with
  | zero =>
    intro attempt execCalls verifCalls hfuel hA
    have hEq : attempt = duochat.maxAttempts := by omega
    subst hEq
    simp [performLoop, exitResult]
  | succ fuel ih =>
    intro attempt execCalls verifCalls hfuel hA
    by_cases hLt : attempt < duochat.maxAttempts
    · simp only [performLoop]
      rw [if_pos ⟨by simpa using hR, hLt⟩, hE]
      rw [ih (attempt + 1) (execCalls + 1) verifCalls (by omega) (by omega)]
      have : execCalls + 1 + (duochat.maxAttempts - (attempt + 1)) =
          execCalls + (duochat.maxAttempts - attempt) := by omega
      rw [this]
    · have hEq : attempt = duochat.maxAttempts := by omega
      subst hEq
      simp [performLoop, exitResult]


theorem performLoop_allSuccess (duochat : DuoChat) (taskDescription : String)
    (E V : Nat → String → String)
    (hE : ∀ i p, duochat.executor i p = some (E i p))
    (hV : ∀ i p, duochat.verifier i p = some (V i p)) :
    ∀ j fuel recordHistory attempt execCalls verifCalls,
      recordHistory.length + j + 1 = duochat.refinementRounds →
      attempt + j < duochat.maxAttempts →
      j < fuel →
      ∃ p,
        (performLoop duochat taskDescription fuel recordHistory attempt execCalls verifCalls).outcome =
          .solution (E (execCalls + j) p) ∧
        (performLoop duochat taskDescription fuel recordHistory attempt execCalls verifCalls).execCalls =
          execCalls + j + 1 ∧
        (performLoop duochat taskDescription fuel recordHistory attempt execCalls verifCalls).verifCalls =
          verifCalls + j ∧
        (performLoop duochat taskDescription fuel recordHistory attempt execCalls verifCalls).attempts =
          attempt + j + 1 ∧
        (performLoop duochat taskDescription fuel recordHistory attempt execCalls verifCalls).exitKind =
          .finalRoundReturn ∧
        (performLoop duochat taskDescription fuel recordHistory attempt execCalls verifCalls).history.length =
          recordHistory.length + j := by
  intro j
  induction j with
  | zero =>
    intro fuel recordHistory attempt execCalls verifCalls hlen hA hfuel
    obtain ⟨fuel, rfl⟩ : ∃ f, fuel = f + 1 := ⟨fuel - 1, by omega⟩
    simp only [performLoop]
    rw [if_pos ⟨by omega, by omega⟩, hE]
    dsimp only
    rw [if_pos (by omega)]
    exact ⟨executorPromptFor taskDescription recordHistory, by simp, by simp, by simp, by simp,
      rfl, by simp⟩
  | succ j ih =>
    intro fuel recordHistory attempt execCalls verifCalls hlen hA hfuel
    obtain ⟨fuel, rfl⟩ : ∃ f, fuel = f + 1 := ⟨fuel - 1, by omega⟩
    simp only [performLoop]
    rw [if_pos ⟨by omega, by omega⟩, hE]
    dsimp only
    rw [if_neg (by omega), hV]
    dsimp only
    have hlen' :
        (recordHistory ++
          [{ executorPrompt := executorPromptFor taskDescription recordHistory,
             executorSolution := E execCalls (executorPromptFor taskDescription recordHistory),
             verifierPrompt := verifierPromptFor taskDescription recordHistory
               (E execCalls (executorPromptFor taskDescription recordHistory)),
             verifierFeedback := V verifCalls (verifierPromptFor taskDescription recordHistory
               (E execCalls (executorPromptFor taskDescription recordHistory))) }] : List RoundRecord).length
          + j + 1 = duochat.refinementRounds := by
      simpa using by omega
    obtain ⟨p, h1, h2, h3, h4, h5, h6⟩ :=
      ih fuel _ (attempt + 1) (execCalls + 1) (verifCalls + 1) hlen' (by omega) (by omega)
    refine ⟨p, ?_, ?_, ?_, ?_, ?_, ?_⟩
    · rw [h1]
      have : execCalls + 1 + j = execCalls + (j + 1) := by omega
      rw [this]
    · rw [h2]; omega
    · rw [h3]; omega
    · rw [h4]; omega
    · exact h5
    · rw [h6]; simp; omega

end DuoChat

namespace DuoChat

theorem performLoop_exhausted_nonempty (duochat : DuoChat) (taskDescription : String)
    (fuel : Nat) (recordHistory : List RoundRecord) (attempt execCalls verifCalls : Nat)
    (lastRoundRecord : RoundRecord)
    (hA : attempt = duochat.maxAttempts)
    (hL : recordHistory.getLast? = some lastRoundRecord) :
    performLoop duochat taskDescription fuel recordHistory attempt execCalls verifCalls =
      { outcome := .solution lastRoundRecord.executorSolution, execCalls := execCalls,
        verifCalls := verifCalls, attempts := attempt, history := recordHistory,
        exitKind := .guardExit } := by
  cases fuel with
  | zero => simp [performLoop, exitResult, hL]
  | succ fuel =>
    simp only [performLoop]
    rw [if_neg (by omega)]
    simp [exitResult, hL]

theorem performLoop_stop (duochat : DuoChat) (taskDescription : String)
    (hR : 1 ≤ duochat.refinementRounds) :
    ∀ fuel recordHistory attempt execCalls verifCalls,
      duochat.maxAttempts ≤ fuel + attempt →
      attempt ≤ duochat.maxAttempts →
      recordHistory.length + 1 ≤ duochat.refinementRounds →
      ((performLoop duochat taskDescription fuel recordHistory attempt execCalls verifCalls).exitKind =
          .guardExit →
        (performLoop duochat taskDescription fuel recordHistory attempt execCalls verifCalls).attempts =
          duochat.maxAttempts) ∧
      ((performLoop duochat taskDescription fuel recordHistory attempt execCalls verifCalls).exitKind =
          .finalRoundReturn →
        (performLoop duochat taskDescription fuel recordHistory attempt execCalls verifCalls).history.length
          + 1 = duochat.refinementRounds) ∧
      (performLoop duochat taskDescription fuel recordHistory attempt execCalls verifCalls).history.length
        + 1 ≤ duochat.refinementRounds := by
  intro fuel
  induction fuel with
  | zero =>
    intro recordHistory attempt execCalls verifCalls hfuel hA hH
    have hEq : attempt = duochat.maxAttempts := by omega
    subst hEq
    refine ⟨fun _ => ?_, fun hk => ?_, ?_⟩
    · simp [performLoop, exitResult_attempts]
    · rw [performLoop, exitResult_exitKind] at hk
      exact absurd hk (by simp)
    · simpa [performLoop, exitResult_history] using hH
  | succ fuel ih =>
    intro recordHistory attempt execCalls verifCalls hfuel hA hH
    by_cases hLt : attempt < duochat.maxAttempts
    · simp only [performLoop]
      rw [if_pos ⟨by omega, hLt⟩]
      cases hE : duochat.executor execCalls (executorPromptFor taskDescription recordHistory) with
      | none => exact ih _ _ _ _ (by omega) (by omega) hH
      | some executorSolution =>
        dsimp only
        by_cases hFin : recordHistory.length = duochat.refinementRounds - 1
        · rw [if_pos hFin]
          refine ⟨fun hk => ?_, fun _ => ?_, ?_⟩
          · exact absurd hk (by simp)
          · simpa using by omega
          · simpa using by omega
        · rw [if_neg hFin]
          cases hV : duochat.verifier verifCalls
              (verifierPromptFor taskDescription recordHistory executorSolution) with
          | none => exact ih _ _ _ _ (by omega) (by omega) hH
          | some verifierFeedback =>
            refine ih _ _ _ _ (by omega) (by omega) ?_
            have : recordHistory.length + 2 ≤ duochat.refinementRounds := by omega
            simpa using this
    · have hEq : attempt = duochat.maxAttempts := by omega
      subst hEq
      simp only [performLoop]
      rw [if_neg (by omega)]
      refine ⟨fun _ => ?_, fun hk => ?_, ?_⟩
      · simp [exitResult_attempts]
      · rw [exitResult_exitKind] at hk
        exact absurd hk (by simp)
      · simpa [exitResult_history] using hH

theorem performLoop_verifFail_step (duochat : DuoChat) (taskDescription : String)
    (fuel : Nat) (recordHistory : List RoundRecord) (attempt execCalls verifCalls : Nat)
    (executorSolution : String)
    (h1 : recordHistory.length < duochat.refinementRounds)
    (h2 : attempt < duochat.maxAttempts)
    (h3 : recordHistory.length ≠ duochat.refinementRounds - 1)
    (hE : duochat.executor execCalls (executorPromptFor taskDescription recordHistory) =
      some executorSolution)
    (hV : duochat.verifier verifCalls
      (verifierPromptFor taskDescription recordHistory executorSolution) = none) :
    performLoop duochat taskDescription (fuel + 1) recordHistory attempt execCalls verifCalls =
      performLoop duochat taskDescription fuel recordHistory (attempt + 1) (execCalls + 1)
        (verifCalls + 1) := by
  simp only [performLoop]
  rw [if_pos ⟨h1, h2⟩, hE]
  dsimp only
  rw [if_neg h3, hV]

end DuoChat

theorem reachable_len_le (duochat : DuoChat.DuoChat) (taskDescription : String)
    (recordHistory : List RoundRecord) (attempt execCalls verifCalls : Nat)
    (h : ReachableState duochat taskDescription recordHistory attempt execCalls verifCalls) :
    recordHistory.length ≤ duochat.refinementRounds ∧ recordHistory.length ≤ attempt := by
  induction h with
  | init => simp
  | execFailStep recordHistory attempt execCalls verifCalls _ hlt _ _ ih => omega
  | verifFailStep recordHistory attempt execCalls verifCalls s _ hlt _ _ _ _ ih => omega
  | roundCompleteStep recordHistory attempt execCalls verifCalls s fb _ hlt _ _ _ _ ih =>
    simp only [List.length_append, List.length_cons, List.length_nil]
    omega

/-- C1: for every refinementRounds value N ≥ 1, if every executor and verifier
invocation succeeds (the capabilities always return `some`), then `perform`
makes exactly N executor calls and exactly N−1 verifier calls, and returns the
output of the Nth executor call (so the verifier is never invoked in the final
round: only N−1 verifier calls happen). -/
theorem C1_allSuccess_call_counts (N : Nat) (executor verifier : Nat → String → Option String)
    (taskDescription : String) (E V : Nat → String → String)
    (hN : 1 ≤ N)
    (hE : ∀ i p, executor i p = some (E i p))
    (hV : ∀ i p, verifier i p = some (V i p)) :
    ∃ p,
      (Checkmate.perform (Checkmate.createCheckMate executor verifier N) taskDescription).outcome =
        .solution (E (N - 1) p) ∧
      (Checkmate.perform (Checkmate.createCheckMate executor verifier N) taskDescription).execCalls =
        N ∧
      (Checkmate.perform (Checkmate.createCheckMate executor verifier N) taskDescription).verifCalls =
        N - 1 := by
  rw [perform_bridge]
  unfold DuoChat.perform
  obtain ⟨p, h1, h2, h3, _, _, _⟩ :=
    DuoChat.performLoop_allSuccess
      (Checkmate.toDuoChat (Checkmate.createCheckMate executor verifier N)) taskDescription E V
      hE hV (N - 1) (N + 2) [] 0 0 0 (by show List.length [] + (N - 1) + 1 = N; simp; omega) (by show 0 + (N - 1) < N + 2; omega)
      (by omega)
  refine ⟨p, ?_, ?_, ?_⟩
  · rw [show (Checkmate.toDuoChat (Checkmate.createCheckMate executor verifier N)).maxAttempts
        = N + 2 from rfl, h1]
    have : 0 + (N - 1) = N - 1 := by omega
    rw [this]
  · rw [show (Checkmate.toDuoChat (Checkmate.createCheckMate executor verifier N)).maxAttempts
        = N + 2 from rfl, h2]
    omega
  · rw [show (Checkmate.toDuoChat (Checkmate.createCheckMate executor verifier N)).maxAttempts
        = N + 2 from rfl, h3]
    omega

/-- Witness for C1 at N = 3 with always-succeeding numbered agents: the run
returns the third executor output after 3 executor calls and 2 verifier
calls. -/
theorem C1_witness :
    ∃ p,
      (Checkmate.perform (Checkmate.createCheckMate (numberedAgent "E") (numberedAgent "V") 3)
          "T").outcome = .solution (numberedOutput "E" (3 - 1) p) ∧
      (Checkmate.perform (Checkmate.createCheckMate (numberedAgent "E") (numberedAgent "V") 3)
          "T").execCalls = 3 ∧
      (Checkmate.perform (Checkmate.createCheckMate (numberedAgent "E") (numberedAgent "V") 3)
          "T").verifCalls = 3 - 1 :=
  C1_allSuccess_call_counts 3 (numberedAgent "E") (numberedAgent "V") "T"
    (numberedOutput "E") (numberedOutput "V") (by omega) (fun i p => rfl) (fun i p => rfl)

/-- C2: for every instance with refinementRounds ≥ 1 and every behaviour of
the executor and verifier capabilities, `perform` executes at most
`maxAttempts` round-attempts.  The final `attempts` counter equals the number
of loop-body entries, since the `finally` clause increments it exactly once
per entry. -/
theorem C2_attempt_budget (duochat : DuoChat.DuoChat) (taskDescription : String)
    (hR : 1 ≤ duochat.refinementRounds) :
    (DuoChat.perform duochat taskDescription).attempts ≤ duochat.maxAttempts := by
  unfold DuoChat.perform
  exact DuoChat.performLoop_attempts_le duochat taskDescription _ _ _ _ _ (Nat.zero_le _)

/-- Witness for C2 on the default DuoChat instance with always-failing
agents. -/
theorem C2_witness :
    1 ≤ (DuoChat.createDuoChat failingAgent failingAgent).refinementRounds ∧
    (DuoChat.perform (DuoChat.createDuoChat failingAgent failingAgent) "T").attempts ≤
      (DuoChat.createDuoChat failingAgent failingAgent).maxAttempts :=
  ⟨by decide, C2_attempt_budget (DuoChat.createDuoChat failingAgent failingAgent) "T" (by decide)⟩

/-- C3: if every executor invocation fails, `perform` makes zero verifier
calls and, after exactly `maxAttempts` attempts, throws an error whose
payload reports the number of attempts made (`.failure maxAttempts`); no
solution is returned. -/
theorem C3_executor_always_fails (duochat : DuoChat.DuoChat) (taskDescription : String)
    (hE : ∀ i p, duochat.executor i p = none) (hR : 1 ≤ duochat.refinementRounds) :
    DuoChat.perform duochat taskDescription =
      { outcome := .failure duochat.maxAttempts, execCalls := duochat.maxAttempts,
        verifCalls := 0, attempts := duochat.maxAttempts, history := [],
        exitKind := .guardExit } := by
  unfold DuoChat.perform
  have h := DuoChat.performLoop_execFail duochat taskDescription hE hR duochat.maxAttempts 0 0 0
    (by omega) (by omega)
  simpa using h

/-- Witness for C3 on the default DuoChat instance (maxAttempts = 5) with an
always-failing executor. -/
theorem C3_witness :
    DuoChat.perform (DuoChat.createDuoChat failingAgent (numberedAgent "V")) "T" =
      { outcome := .failure 5, execCalls := 5, verifCalls := 0, attempts := 5, history := [],
        exitKind := .guardExit } :=
  C3_executor_always_fails (DuoChat.createDuoChat failingAgent (numberedAgent "V")) "T"
    (fun i p => rfl) (by decide)

/-- C4: whenever the loop reaches a state where the attempt budget is
exhausted (attempt = maxAttempts) and at least one round record has been
completed (`recordHistory.getLast? = some lastRoundRecord`), `perform` does
not throw: the loop exits and returns the executor solution of the most
recently completed round record. -/
theorem C4_exhaustion_with_history (duochat : DuoChat.DuoChat) (taskDescription : String)
    (fuel : Nat) (recordHistory : List RoundRecord) (attempt execCalls verifCalls : Nat)
    (lastRoundRecord : RoundRecord)
    (hA : attempt = duochat.maxAttempts)
    (hL : recordHistory.getLast? = some lastRoundRecord) :
    DuoChat.performLoop duochat taskDescription fuel recordHistory attempt execCalls verifCalls =
      { outcome := .solution lastRoundRecord.executorSolution, execCalls := execCalls,
        verifCalls := verifCalls, attempts := attempt, history := recordHistory,
        exitKind := .guardExit } :=
  DuoChat.performLoop_exhausted_nonempty duochat taskDescription fuel recordHistory attempt
    execCalls verifCalls lastRoundRecord hA hL

/-- Witness for C4 at a concrete exhausted state with one completed
record. -/
theorem C4_witness :
    DuoChat.performLoop (DuoChat.createDuoChat failingAgent failingAgent) "T" 5
        [{ executorPrompt := "p", executorSolution := "s", verifierPrompt := "q",
           verifierFeedback := "f" }] 5 3 1 =
      { outcome := .solution "s", execCalls := 3, verifCalls := 1, attempts := 5,
        history := [{ executorPrompt := "p", executorSolution := "s", verifierPrompt := "q",
                      verifierFeedback := "f" }],
        exitKind := .guardExit } :=
  C4_exhaustion_with_history (DuoChat.createDuoChat failingAgent failingAgent) "T" 5
    [{ executorPrompt := "p", executorSolution := "s", verifierPrompt := "q",
       verifierFeedback := "f" }] 5 3 1
    { executorPrompt := "p", executorSolution := "s", verifierPrompt := "q",
      verifierFeedback := "f" }
    (by decide) (by decide)

/-- C5: in a round-attempt where the executor call succeeds but the
subsequent verifier call fails (on a non-final round, where the verifier is
consulted at all), no record is appended to the history, the attempt counter
is incremented, and the loop continues at the very same history — i.e. the
same round number `recordHistory.length + 1` — starting again from the
executor step.  A partial record therefore never enters the history. -/
theorem C5_verifier_failure_discards_round (duochat : DuoChat.DuoChat) (taskDescription : String)
    (fuel : Nat) (recordHistory : List RoundRecord) (attempt execCalls verifCalls : Nat)
    (executorSolution : String)
    (h1 : recordHistory.length < duochat.refinementRounds)
    (h2 : attempt < duochat.maxAttempts)
    (h3 : recordHistory.length ≠ duochat.refinementRounds - 1)
    (hE : duochat.executor execCalls (DuoChat.executorPromptFor taskDescription recordHistory) =
      some executorSolution)
    (hV : duochat.verifier verifCalls
      (DuoChat.verifierPromptFor taskDescription recordHistory executorSolution) = none) :
    DuoChat.performLoop duochat taskDescription (fuel + 1) recordHistory attempt execCalls
        verifCalls =
      DuoChat.performLoop duochat taskDescription fuel recordHistory (attempt + 1) (execCalls + 1)
        (verifCalls + 1) :=
  DuoChat.performLoop_verifFail_step duochat taskDescription fuel recordHistory attempt execCalls
    verifCalls executorSolution h1 h2 h3 hE hV

/-- Witness for C5 at the initial state with a succeeding executor and a
failing verifier. -/
theorem C5_witness :
    DuoChat.performLoop (DuoChat.createDuoChat (numberedAgent "E") failingAgent) "T" (4 + 1)
        [] 0 0 0 =
      DuoChat.performLoop (DuoChat.createDuoChat (numberedAgent "E") failingAgent) "T" 4
        [] (0 + 1) (0 + 1) (0 + 1) :=
  C5_verifier_failure_discards_round (DuoChat.createDuoChat (numberedAgent "E") failingAgent)
    "T" 4 [] 0 0 0 "E1" (by decide) (by decide) (by decide) rfl rfl

/-- C8: at every loop-head state reachable during `perform` (any behaviour
of the two capabilities), the history length is at most `refinementRounds`
and the attempt counter is at least the history length. -/
theorem C8_loop_head_invariant (duochat : DuoChat.DuoChat) (taskDescription : String)
    (recordHistory : List RoundRecord) (attempt execCalls verifCalls : Nat)
    (h : ReachableState duochat taskDescription recordHistory attempt execCalls verifCalls) :
    recordHistory.length ≤ duochat.refinementRounds ∧ recordHistory.length ≤ attempt :=
  reachable_len_le duochat taskDescription recordHistory attempt execCalls verifCalls h

/-- Witness for C8 at the initial loop-head state. -/
theorem C8_witness :
    ([] : List RoundRecord).length ≤
        (DuoChat.createDuoChat (numberedAgent "E") (numberedAgent "V")).refinementRounds ∧
    ([] : List RoundRecord).length ≤ 0 :=
  C8_loop_head_invariant (DuoChat.createDuoChat (numberedAgent "E") (numberedAgent "V")) "T"
    [] 0 0 0 ReachableState.init

/-- C9 (amended): the round loop of `perform` always terminates (the
embedding is a total function), and it stops either (a) by the loop guard
failing, in which case the attempt counter equals `maxAttempts`, or (b) by
the early return of the final round, in which case the history length equals
`refinementRounds − 1`; the history length never reaches `refinementRounds`.
The original claim — that the loop stops exactly when history length =
refinementRounds or attempts = maxAttempts — fails on the code; the
counterexample theorem below exhibits a run stopping with neither condition
true. -/
theorem C9_stop_condition (duochat : DuoChat.DuoChat) (taskDescription : String)
    (hR : 1 ≤ duochat.refinementRounds) :
    ((DuoChat.perform duochat taskDescription).exitKind = .guardExit →
      (DuoChat.perform duochat taskDescription).attempts = duochat.maxAttempts) ∧
    ((DuoChat.perform duochat taskDescription).exitKind = .finalRoundReturn →
      (DuoChat.perform duochat taskDescription).history.length + 1 =
        duochat.refinementRounds) ∧
    (DuoChat.perform duochat taskDescription).history.length < duochat.refinementRounds := by
  unfold DuoChat.perform
  have h := DuoChat.performLoop_stop duochat taskDescription hR duochat.maxAttempts [] 0 0 0
    (by omega) (by omega) (by simpa using hR)
  exact ⟨h.1, h.2.1, by have h3 := h.2.2; omega⟩

/-- Witness for C9 on the default DuoChat instance with always-succeeding
agents. -/
theorem C9_witness :
    1 ≤ (DuoChat.createDuoChat (numberedAgent "E") (numberedAgent "V")).refinementRounds ∧
    (((DuoChat.perform (DuoChat.createDuoChat (numberedAgent "E") (numberedAgent "V"))
          "T").exitKind = .guardExit →
        (DuoChat.perform (DuoChat.createDuoChat (numberedAgent "E") (numberedAgent "V"))
            "T").attempts =
          (DuoChat.createDuoChat (numberedAgent "E") (numberedAgent "V")).maxAttempts) ∧
      ((DuoChat.perform (DuoChat.createDuoChat (numberedAgent "E") (numberedAgent "V"))
          "T").exitKind = .finalRoundReturn →
        (DuoChat.perform (DuoChat.createDuoChat (numberedAgent "E") (numberedAgent "V"))
              "T").history.length + 1 =
          (DuoChat.createDuoChat (numberedAgent "E") (numberedAgent "V")).refinementRounds) ∧
      (DuoChat.perform (DuoChat.createDuoChat (numberedAgent "E") (numberedAgent "V"))
            "T").history.length <
        (DuoChat.createDuoChat (numberedAgent "E") (numberedAgent "V")).refinementRounds) :=
  ⟨by decide,
    C9_stop_condition (DuoChat.createDuoChat (numberedAgent "E") (numberedAgent "V")) "T"
      (by decide)⟩

/-- Counterexample to C9 as stated: with refinementRounds = 1 (maxAttempts
= 3) and an always-succeeding executor, the loop stops (a solution is
returned) while the history length (0) never equals refinementRounds (1) and
the attempt counter (1) never equals maxAttempts (3) — neither claimed stop
condition holds at exit. -/
theorem C9_counterexample :
    (Checkmate.perform (Checkmate.createCheckMate (numberedAgent "E") (numberedAgent "V") 1)
        "T").outcome = .solution "E1" ∧
    (Checkmate.perform (Checkmate.createCheckMate (numberedAgent "E") (numberedAgent "V") 1)
        "T").history.length ≠
      (Checkmate.createCheckMate (numberedAgent "E") (numberedAgent "V") 1).refinementRounds ∧
    (Checkmate.perform (Checkmate.createCheckMate (numberedAgent "E") (numberedAgent "V") 1)
        "T").attempts ≠
      (Checkmate.createCheckMate (numberedAgent "E") (numberedAgent "V") 1).maxAttempts := by
  decide

/-- C10: the two constructors are behaviourally equivalent at their
defaults: `createDuoChat(executor, verifier)` (refinementRounds 3,
maxAttempts 5) and `createCheckMate(executor, verifier)` with the default
refinementRounds 3 (maxAttempts 3 + 2 = 5) agree on the configuration and,
for every task description and every behaviour of both capabilities, their
`perform` runs produce identical results — including identical executor and
verifier call counts, outcome, final history and attempt counter. -/
theorem C10_constructors_equivalent (executor verifier : Nat → String → Option String)
    (taskDescription : String) :
    (DuoChat.createDuoChat executor verifier).refinementRounds =
      (Checkmate.createCheckMate executor verifier
        Checkmate.defaultRefinementRounds).refinementRounds ∧
    (DuoChat.createDuoChat executor verifier).maxAttempts =
      (Checkmate.createCheckMate executor verifier
        Checkmate.defaultRefinementRounds).maxAttempts ∧
    DuoChat.perform (DuoChat.createDuoChat executor verifier) taskDescription =
      Checkmate.perform (Checkmate.createCheckMate executor verifier
        Checkmate.defaultRefinementRounds) taskDescription := by
  refine ⟨rfl, rfl, ?_⟩
  rw [perform_bridge]
  rfl

/-- C6: the exposed constructor takes (executor capability, verifier
capability, refinementRounds — optional in the source with default 3) and
produces an instance storing both capabilities, the given refinementRounds,
`maxAttempts = refinementRounds + 2` fixed at construction, and a debug flag
initially false; `perform` is its entry point. -/
theorem C6_constructor_shape (executor verifier : Nat → String → Option String)
    (refinementRounds : Nat) :
    (Checkmate.createCheckMate executor verifier refinementRounds).executor = executor ∧
    (Checkmate.createCheckMate executor verifier refinementRounds).verifier = verifier ∧
    (Checkmate.createCheckMate executor verifier refinementRounds).refinementRounds =
      refinementRounds ∧
    (Checkmate.createCheckMate executor verifier refinementRounds).maxAttempts =
      (Checkmate.createCheckMate executor verifier refinementRounds).refinementRounds + 2 ∧
    (Checkmate.createCheckMate executor verifier refinementRounds).debug = false ∧
    Checkmate.defaultRefinementRounds = 3 :=
  ⟨rfl, rfl, rfl, rfl, rfl, rfl⟩

/-- C7: the four prompt-rendering operations are pure functions of their
string inputs (determinism is definitional: same inputs, same output term),
each input string appears verbatim in the rendered prompt (the prompt is a
fixed left-to-right concatenation around the inputs), and each rendering is
injective in each input separately — every input, including strings
containing triple-backtick delimiter-like substrings, is recoverable from
the rendered prompt given the other inputs. -/
theorem C7_prompt_rendering (taskDescription previousExecutorSolution verifierFeedback
    executorSolution : String) :
    (∃ a b, DuoChat.createExecuteInitialPrompt taskDescription = a ++ taskDescription ++ b) ∧
    (∃ a b c d, DuoChat.createExecuteFollowupPrompt taskDescription previousExecutorSolution
        verifierFeedback =
      a ++ taskDescription ++ b ++ previousExecutorSolution ++ c ++ verifierFeedback ++ d) ∧
    (∃ a b c, DuoChat.createVerifyInitialPrompt taskDescription executorSolution =
      a ++ taskDescription ++ b ++ executorSolution ++ c) ∧
    (∃ a b c, DuoChat.createVerifyFollowupPrompt taskDescription executorSolution =
      a ++ taskDescription ++ b ++ executorSolution ++ c) ∧
    (∀ t t', DuoChat.createExecuteInitialPrompt t = DuoChat.createExecuteInitialPrompt t' →
      t = t') ∧
    (∀ t t', DuoChat.createExecuteFollowupPrompt t previousExecutorSolution verifierFeedback =
        DuoChat.createExecuteFollowupPrompt t' previousExecutorSolution verifierFeedback →
      t = t') ∧
    (∀ p p', DuoChat.createExecuteFollowupPrompt taskDescription p verifierFeedback =
        DuoChat.createExecuteFollowupPrompt taskDescription p' verifierFeedback → p = p') ∧
    (∀ f f', DuoChat.createExecuteFollowupPrompt taskDescription previousExecutorSolution f =
        DuoChat.createExecuteFollowupPrompt taskDescription previousExecutorSolution f' →
      f = f') ∧
    (∀ t t', DuoChat.createVerifyInitialPrompt t executorSolution =
        DuoChat.createVerifyInitialPrompt t' executorSolution → t = t') ∧
    (∀ s s', DuoChat.createVerifyInitialPrompt taskDescription s =
        DuoChat.createVerifyInitialPrompt taskDescription s' → s = s') ∧
    (∀ t t', DuoChat.createVerifyFollowupPrompt t executorSolution =
        DuoChat.createVerifyFollowupPrompt t' executorSolution → t = t') ∧
    (∀ s s', DuoChat.createVerifyFollowupPrompt taskDescription s =
        DuoChat.createVerifyFollowupPrompt taskDescription s' → s = s') := by
  refine ⟨⟨_, _, rfl⟩, ⟨_, _, _, _, rfl⟩, ⟨_, _, _, rfl⟩, ⟨_, _, _, rfl⟩,
    ?_, ?_, ?_, ?_, ?_, ?_, ?_, ?_⟩
  · intro t t' h
    have hd := congrArg String.data h
    simp only [DuoChat.createExecuteInitialPrompt, String.data_append] at hd
    exact String.ext (List.append_cancel_left (List.append_cancel_right hd))
  · intro t t' h
    have hd := congrArg String.data h
    simp only [DuoChat.createExecuteFollowupPrompt, String.data_append] at hd
    exact String.ext (List.append_cancel_left (List.append_cancel_right
      (List.append_cancel_right (List.append_cancel_right (List.append_cancel_right
        (List.append_cancel_right hd))))))
  · intro p p' h
    have hd := congrArg String.data h
    simp only [DuoChat.createExecuteFollowupPrompt, String.data_append] at hd
    exact String.ext (List.append_cancel_left (List.append_cancel_right
      (List.append_cancel_right (List.append_cancel_right hd))))
  · intro f f' h
    have hd := congrArg String.data h
    simp only [DuoChat.createExecuteFollowupPrompt, String.data_append] at hd
    exact String.ext (List.append_cancel_left (List.append_cancel_right hd))
  · intro t t' h
    have hd := congrArg String.data h
    simp only [DuoChat.createVerifyInitialPrompt, String.data_append] at hd
    exact String.ext (List.append_cancel_left (List.append_cancel_right
      (List.append_cancel_right (List.append_cancel_right hd))))
  · intro s s' h
    have hd := congrArg String.data h
    simp only [DuoChat.createVerifyInitialPrompt, String.data_append] at hd
    exact String.ext (List.append_cancel_left (List.append_cancel_right hd))
  · intro t t' h
    have hd := congrArg String.data h
    simp only [DuoChat.createVerifyFollowupPrompt, String.data_append] at hd
    exact String.ext (List.append_cancel_left (List.append_cancel_right
      (List.append_cancel_right (List.append_cancel_right hd))))
  · intro s s' h
    have hd := congrArg String.data h
    simp only [DuoChat.createVerifyFollowupPrompt, String.data_append] at hd
    exact String.ext (List.append_cancel_left (List.append_cancel_right hd))

/-- Witness for C7: the executor-initial injectivity applied at a concrete
string containing a triple-backtick delimiter-like substring. -/
theorem C7_witness : ("alpha\n```\nbeta" : String) = "alpha\n```\nbeta" :=
  ((C7_prompt_rendering "x" "y" "z" "w").2.2.2.2.1 "alpha\n```\nbeta" "alpha\n```\nbeta") rfl
